import Mathlib

/-!
Verification development for the NMEA-0183 GPS decoder in src/gps/gps.py.

The Python source is shallowly embedded as follows.

* Python floats are modelled as exact rationals.  The NMEA payload only ever
  carries short decimal numerals, and the claims under study compare values
  up to a tolerance, so exact rational arithmetic is a faithful model of the
  double arithmetic of the source.
* Rational arithmetic inside definitions is written with the kernel-friendly
  wrappers ratAdd, ratMul, ratDiv and ratNeg, each proved equal to the
  corresponding field operation on the rationals (lemmas ratAdd_eq,
  ratMul_eq, ratDiv_eq, ratNeg_eq below), so every definition can be
  evaluated on concrete inputs by the kernel.
* Fallible Python code (ValueError from int and float conversions,
  IndexError from out-of-range indexing, TypeError from a call with a wrong
  number of arguments) is modelled with the Except monad over PyErr.
* Byte strings are modelled as Lean strings; the NMEA wire format is ASCII,
  so one character corresponds to one byte.
-/

set_option maxRecDepth 100000

/-- Kernel-evaluable view of mkRat as a quotient of casts. -/
theorem mkRat_div_cast (n : ℤ) (d : ℕ) : mkRat n d = (n : ℚ) / (d : ℚ) := by
  rw [Rat.mkRat_eq_divInt, Rat.divInt_eq_div]
  norm_cast

/-- Kernel-evaluable addition on the rationals, used inside the embedding so
that concrete runs reduce by decide. -/
def ratAdd (a b : ℚ) : ℚ := mkRat (a.num * b.den + b.num * a.den) (a.den * b.den)

/-- Kernel-evaluable multiplication on the rationals. -/
def ratMul (a b : ℚ) : ℚ := mkRat (a.num * b.num) (a.den * b.den)

/-- Kernel-evaluable division on the rationals (division by zero gives zero,
as in Mathlib). -/
def ratDiv (a b : ℚ) : ℚ := mkRat (a.num * b.den * b.num.sign) (a.den * b.num.natAbs)

/-- Kernel-evaluable negation on the rationals. -/
def ratNeg (a : ℚ) : ℚ := mkRat (-a.num) a.den

/-- ratAdd is rational addition. -/
theorem ratAdd_eq (a b : ℚ) : ratAdd a b = a + b := by
  have had : ((a.den : ℚ)) ≠ 0 := Nat.cast_ne_zero.mpr a.den_nz
  have hbd : ((b.den : ℚ)) ≠ 0 := Nat.cast_ne_zero.mpr b.den_nz
  rw [ratAdd, mkRat_div_cast]
  push_cast
  conv_rhs => rw [← Rat.num_div_den a, ← Rat.num_div_den b]
  field_simp

/-- ratMul is rational multiplication. -/
theorem ratMul_eq (a b : ℚ) : ratMul a b = a * b := (Rat.mul_eq_mkRat a b).symm

/-- ratNeg is rational negation. -/
theorem ratNeg_eq (a : ℚ) : ratNeg a = -a := by
  rw [ratNeg, mkRat_div_cast]
  push_cast
  rw [neg_div, Rat.num_div_den]

/-- ratDiv is rational division. -/
theorem ratDiv_eq (a b : ℚ) : ratDiv a b = a / b := by
  rcases lt_trichotomy b.num 0 with hb | hb | hb
  · have had : ((a.den : ℚ)) ≠ 0 := Nat.cast_ne_zero.mpr a.den_nz
    have hbd : ((b.den : ℚ)) ≠ 0 := Nat.cast_ne_zero.mpr b.den_nz
    have hbq : ((b.num : ℚ)) < 0 := by exact_mod_cast hb
    have hs : b.num.sign = -1 := Int.sign_eq_neg_one_iff_neg.mpr hb
    have h1 : ((b.num.natAbs : ℤ)) = -b.num := Int.ofNat_natAbs_of_nonpos hb.le
    have hna : ((b.num.natAbs : ℚ)) = -((b.num : ℚ)) := by
      rw [← Int.cast_natCast (R := ℚ), h1]
      push_cast
      ring
    rw [ratDiv, mkRat_div_cast, hs]
    push_cast
    rw [hna]
    conv_rhs => rw [← Rat.num_div_den a, ← Rat.num_div_den b]
    field_simp
  · have hb0 : b = 0 := Rat.num_eq_zero.mp hb
    subst hb0
    rw [ratDiv]
    norm_num [Rat.mkRat_eq_divInt]
  · have had : ((a.den : ℚ)) ≠ 0 := Nat.cast_ne_zero.mpr a.den_nz
    have hbd : ((b.den : ℚ)) ≠ 0 := Nat.cast_ne_zero.mpr b.den_nz
    have hbq : (0 : ℚ) < ((b.num : ℚ)) := by exact_mod_cast hb
    have hs : b.num.sign = 1 := Int.sign_eq_one_iff_pos.mpr hb
    have h1 : ((b.num.natAbs : ℤ)) = b.num := Int.natAbs_of_nonneg hb.le
    have hna : ((b.num.natAbs : ℚ)) = ((b.num : ℚ)) := by
      rw [← Int.cast_natCast (R := ℚ), h1]
    rw [ratDiv, mkRat_div_cast, hs]
    push_cast
    rw [hna]
    conv_rhs => rw [← Rat.num_div_den a, ← Rat.num_div_den b]
    field_simp

/-- Time of a measurement: the Python tuple (hour, minute, second) built by
Location.__time_from_seg, with the second a float. -/
abbrev Time : Type := ℤ × ℤ × ℚ

/-- Python tuple comparison a < b on (int, int, float) triples: lexicographic
order, as used by the recency guards in gps.py. -/
def timeLt (a b : Time) : Bool :=
  decide (a.1 < b.1 ∨ (a.1 = b.1 ∧ (a.2.1 < b.2.1 ∨ (a.2.1 = b.2.1 ∧ a.2.2 < b.2.2))))

/-- Earlier-or-equal ordering on time tuples. -/
def timeLe (a b : Time) : Bool :=
  timeLt a b || decide (a = b)

/-- Value (gps.py lines 20-60): a floating value with a unit tag and the time
of measurement.  Immutable once constructed. -/
structure Value where
  val : ℚ
  unit : String
  time : Time
deriving DecidableEq

/-- Distance (gps.py lines 62-67): a Value with no extra behaviour. -/
def Distance.make (v : ℚ) (u : String) (t : Time) : Value :=
  { val := v, unit := u, time := t }

/-- Position (gps.py lines 69-74): the stored value is v when the direction
tag is exactly N or E and -v otherwise. -/
def Position.make (v : ℚ) (u : String) (t : Time) : Value :=
  { val := if u = "N" ∨ u = "E" then v else ratNeg v, unit := u, time := t }

/-- Conversion factor 1.85200 km/h per knot (gps.py lines 94 and 102). -/
def kmhPerKnot : ℚ := mkRat 1852 1000

/-- Speed.to_kmh (gps.py lines 89-95): multiply by 1.85200 when the unit is
knot or N, otherwise return the value unchanged. -/
def Speed.to_kmh (s : Value) : Value :=
  if s.unit = "knot" ∨ s.unit = "N" then
    { val := ratMul s.val kmhPerKnot, unit := "kmh", time := s.time }
  else s

/-- Speed.to_knot (gps.py lines 97-103): divide by 1.85200 when the unit is
kmh or K, otherwise return the value unchanged. -/
def Speed.to_knot (s : Value) : Value :=
  if s.unit = "kmh" ∨ s.unit = "K" then
    { val := ratDiv s.val kmhPerKnot, unit := "knot", time := s.time }
  else s

/-- HDOP construction (gps.py lines 105-110): the unit tag is the empty
string. -/
def HDOP.make (v : ℚ) (t : Time) : Value :=
  { val := v, unit := "", time := t }

/-- HDOP.__str__ (gps.py lines 112-124): quality classification of the HDOP
value by fixed thresholds.  The source returns the abbreviated labels
written here. -/
def HDOP.classify (h : Value) : String :=
  if h.val < 1 then "Ide."
  else if h.val ≤ 2 then "Exe."
  else if h.val ≤ 5 then "Good"
  else if h.val ≤ 10 then "Mod."
  else if h.val ≤ 20 then "Fair"
  else "Poor"

/-- Course (gps.py lines 129-134): a Value with unit tag D. -/
def Course.make (v : ℚ) (t : Time) : Value :=
  { val := v, unit := "D", time := t }

/-- Python exception kinds raised by the code under study. -/
inductive PyErr where
  | valueError
  | typeError
  | indexError
deriving DecidableEq

/-- Python string slicing s[a:b] on an ASCII byte string. -/
def strSlice (s : String) (a b : ℕ) : String :=
  ((s.data.drop a).take (b - a)).asString

/-- Python string slicing s[a:] on an ASCII byte string. -/
def strFrom (s : String) (a : ℕ) : String :=
  (s.data.drop a).asString

/-- Splitting of a character list at a separator, the helper behind pySplit. -/
def splitAux (sep : Char) : List Char → List Char → List (List Char)
  | [], acc => [acc.reverse]
  | c :: rest, acc =>
      if c = sep then acc.reverse :: splitAux sep rest []
      else splitAux sep rest (c :: acc)

/-- Python str.split(sep) with a one-character separator: the empty string
splits to a single empty field, and consecutive separators produce empty
fields, as in Python. -/
def pySplit (s : String) (sep : Char) : List String :=
  (splitAux sep s.data []).map List.asString

/-- Decimal digit test. -/
def isDigitCh (c : Char) : Bool := decide ('0' ≤ c) && decide (c ≤ '9')

/-- Value of a digit string read in base ten. -/
def digitsVal (cs : List Char) : ℕ :=
  cs.foldl (fun a c => 10 * a + (c.toNat - 48)) 0

/-- All-characters-are-digits test. -/
def allDigits (cs : List Char) : Bool := cs.all isDigitCh

/-- Python float(s) restricted to the decimal numerals that occur in NMEA
payloads: an optional sign, then digits with at most one decimal point.
The result sign * (intpart + fracpart / 10 ^ fraclen) is built as a single
exact fraction.  Any other string yields none, standing for ValueError. -/
def pyFloat? (s : String) : Option ℚ :=
  let sb : ℤ × List Char :=
    match s.data with
    | '-' :: rest => (-1, rest)
    | '+' :: rest => (1, rest)
    | cs => (1, cs)
  match splitAux '.' sb.2 [] with
  | [ip] =>
      if ip ≠ [] ∧ allDigits ip = true then some (mkRat (sb.1 * digitsVal ip) 1)
      else none
  | [ip, fp] =>
      if (ip ≠ [] ∨ fp ≠ []) ∧ allDigits ip = true ∧ allDigits fp = true then
        some (mkRat (sb.1 * (digitsVal ip * 10 ^ fp.length + digitsVal fp)) (10 ^ fp.length))
      else none
  | _ => none

/-- Python int(s): an optional sign followed by at least one digit.  Any
other string yields none, standing for ValueError. -/
def pyInt? (s : String) : Option ℤ :=
  match s.data with
  | '-' :: rest =>
      if rest ≠ [] ∧ allDigits rest = true then some (-(digitsVal rest : ℤ)) else none
  | '+' :: rest =>
      if rest ≠ [] ∧ allDigits rest = true then some ((digitsVal rest : ℤ)) else none
  | cs =>
      if cs ≠ [] ∧ allDigits cs = true then some ((digitsVal cs : ℤ)) else none

/-- float(s) in the Except monad: a failed conversion raises ValueError. -/
def pyFloatE (s : String) : Except PyErr ℚ :=
  match pyFloat? s with
  | some q => Except.ok q
  | none => Except.error PyErr.valueError

/-- int(s) in the Except monad: a failed conversion raises ValueError. -/
def pyIntE (s : String) : Except PyErr ℤ :=
  match pyInt? s with
  | some n => Except.ok n
  | none => Except.error PyErr.valueError

/-- Python list indexing d[i] in the Except monad: an out-of-range index
raises IndexError. -/
def pyGetE (d : List String) (i : ℕ) : Except PyErr String :=
  match d.get? i with
  | some s => Except.ok s
  | none => Except.error PyErr.indexError

/-- Location.__seg_set (gps.py lines 220-226): index i of the split segment
counts as set iff it exists, is non-empty, and does not contain a star.
The star test embeds the Python substring test for the one-character
string. -/
def segSet (d : List String) (i : ℕ) : Bool :=
  decide (i + 1 ≤ d.length) && decide ((d.getD i "").data ≠ []) &&
    !((d.getD i "").data.contains '*')

/-- Location.__time_from_seg (gps.py lines 299-303): the time tuple
(int(ts[0:2]), int(ts[2:4]), float(ts[4:])). -/
def timeFromSeg (ts : String) : Except PyErr Time := do
  let h ← pyIntE (strSlice ts 0 2)
  let m ← pyIntE (strSlice ts 2 4)
  let s ← pyFloatE (strFrom ts 4)
  Except.ok (h, m, s)

/-- Location (gps.py lines 136-153): the aggregate fix under construction.
The satellite field carries the -1 unset sentinel of the source. -/
structure Location where
  valid : Bool
  lat : Option Value
  long : Option Value
  alt : Option Value
  height : Option Value
  speed : Option Value
  course : Option Value
  satellites : ℤ
  hdop : Option Value
deriving DecidableEq

/-- Location.__init__ (gps.py lines 144-153). -/
def Location.init : Location :=
  { valid := false, lat := none, long := none, alt := none, height := none,
    speed := none, course := none, satellites := -1, hdop := none }

/-- Location.__set_hdop (gps.py lines 228-240): skip the empty string, then
store HDOP(v, t) iff the field is unset or strictly older than t. -/
def Location.set_hdop (l : Location) (v : String) (t : Time) : Except PyErr Location :=
  if v.data = [] then Except.ok l
  else if (match l.hdop with | none => true | some m => timeLt m.time t) = true then do
    let q ← pyFloatE v
    Except.ok { l with hdop := some (HDOP.make q t) }
  else Except.ok l

/-- Location.__set_speed (gps.py lines 242-254): skip the empty string, then
store Speed(v, u, t) iff the field is unset or strictly older than t. -/
def Location.set_speed (l : Location) (v u : String) (t : Time) : Except PyErr Location :=
  if v.data = [] then Except.ok l
  else if (match l.speed with | none => true | some m => timeLt m.time t) = true then do
    let q ← pyFloatE v
    Except.ok { l with speed := some { val := q, unit := u, time := t } }
  else Except.ok l

/-- Location.__set_course (gps.py lines 256-269): skip the empty string, then
store Course(v, t) iff the field is unset or strictly older than t. -/
def Location.set_course (l : Location) (v : String) (t : Time) : Except PyErr Location :=
  if v.data = [] then Except.ok l
  else if (match l.course with | none => true | some m => timeLt m.time t) = true then do
    let q ← pyFloatE v
    Except.ok { l with course := some (Course.make q t) }
  else Except.ok l

/-- Location.__set_lat (gps.py lines 271-283): skip the empty string, then
store Position(float(v[0:2]) + float(v[2:]) / 60, d, t) iff the field is
unset or strictly older than t. -/
def Location.set_lat (l : Location) (v d : String) (t : Time) : Except PyErr Location :=
  if v.data = [] then Except.ok l
  else if (match l.lat with | none => true | some m => timeLt m.time t) = true then do
    let a ← pyFloatE (strSlice v 0 2)
    let b ← pyFloatE (strFrom v 2)
    Except.ok { l with lat := some (Position.make (ratAdd a (ratDiv b 60)) d t) }
  else Except.ok l

/-- Location.__set_long (gps.py lines 285-297): skip the empty string, then
store Position(float(v[0:3]) + float(v[3:]) / 60, d, t) iff the field is
unset or strictly older than t. -/
def Location.set_long (l : Location) (v d : String) (t : Time) : Except PyErr Location :=
  if v.data = [] then Except.ok l
  else if (match l.long with | none => true | some m => timeLt m.time t) = true then do
    let a ← pyFloatE (strSlice v 0 3)
    let b ← pyFloatE (strFrom v 3)
    Except.ok { l with long := some (Position.make (ratAdd a (ratDiv b 60)) d t) }
  else Except.ok l

/-- Satellite step of the GGA branch (gps.py lines 176-177): assign
int(field 6) only when the count is still the -1 sentinel and field 6 is
set. -/
def ggaSatStep (l : Location) (d : List String) : Except PyErr Location :=
  if l.satellites < 0 ∧ segSet d 6 = true then do
    let n ← pyIntE (d.getD 6 "")
    Except.ok { l with satellites := n }
  else Except.ok l

/-- HDOP step of the GGA branch (gps.py lines 179-180). -/
def ggaHdopStep (l : Location) (d : List String) (t : Time) : Except PyErr Location :=
  if segSet d 7 = true then l.set_hdop (d.getD 7 "") t else Except.ok l

/-- Altitude step of the GGA branch (gps.py lines 182-183): always overwrite
when field 8 is set, with unit field 9 when that is set and M otherwise. -/
def ggaAltStep (l : Location) (d : List String) (t : Time) : Except PyErr Location :=
  if segSet d 8 = true then do
    let q ← pyFloatE (d.getD 8 "")
    Except.ok { l with
      alt := some (Distance.make q (if segSet d 9 = false then "M" else d.getD 9 "") t) }
  else Except.ok l

/-- Height step of the GGA branch (gps.py lines 185-186): always overwrite
when field 10 is set; the unit is field 10 itself when field 11 is set and
M otherwise, exactly as in the source. -/
def ggaHeightStep (l : Location) (d : List String) (t : Time) : Except PyErr Location :=
  if segSet d 10 = true then do
    let q ← pyFloatE (d.getD 10 "")
    Except.ok { l with
      height := some (Distance.make q (if segSet d 11 = false then "M" else d.getD 10 "") t) }
  else Except.ok l

/-- GGA branch of Location.set (gps.py lines 170-186).  Indexing below
position 6 is guarded by the length test, so getD is exact there; positions
6 to 11 are only read under segSet, which checks the length first. -/
def Location.setGGA (l : Location) (d : List String) : Except PyErr Location :=
  if 6 ≤ d.length ∧ (d.getD 5 "" = "1" ∨ d.getD 5 "" = "2" ∨ d.getD 5 "" = "6") then do
    let t ← timeFromSeg (d.getD 0 "")
    let l1 ← l.set_lat (d.getD 1 "") (d.getD 2 "") t
    let l2 ← l1.set_long (d.getD 3 "") (d.getD 4 "") t
    let l3 ← ggaSatStep l2 d
    let l4 ← ggaHdopStep l3 d t
    let l5 ← ggaAltStep l4 d t
    let l6 ← ggaHeightStep l5 d t
    Except.ok l6
  else Except.ok l

/-- GLL branch of Location.set (gps.py lines 187-191). -/
def Location.setGLL (l : Location) (d : List String) : Except PyErr Location :=
  if 6 ≤ d.length ∧ d.getD 5 "" = "A" then do
    let t ← timeFromSeg (d.getD 4 "")
    let l1 ← l.set_lat (d.getD 0 "") (d.getD 1 "") t
    l1.set_long (d.getD 2 "") (d.getD 3 "") t
  else Except.ok l

/-- RMC branch of Location.set (gps.py lines 192-198).  The length guard only
checks six fields while the body reads positions 6 and 7, so those two reads
go through pyGetE and can raise IndexError, as in the source. -/
def Location.setRMC (l : Location) (d : List String) : Except PyErr Location :=
  if 6 ≤ d.length ∧ d.getD 1 "" = "A" then do
    let t ← timeFromSeg (d.getD 0 "")
    let l1 ← l.set_lat (d.getD 2 "") (d.getD 3 "") t
    let l2 ← l1.set_long (d.getD 4 "") (d.getD 5 "") t
    let s6 ← pyGetE d 6
    let l3 ← l2.set_speed s6 "N" t
    let s7 ← pyGetE d 7
    l3.set_course s7 t
  else Except.ok l

/-- VTG branch of Location.set (gps.py lines 199-202).  Line 201 updates the
speed from field 4 with the unit in field 6 and the zero time tuple.  Line
202 then invokes the two-parameter method __set_course with the three
arguments (data[5], data[0], (0, 0, 0.0)), which raises TypeError at the
call, before any course update can happen. -/
def Location.setVTG (l : Location) (d : List String) : Except PyErr Location :=
  if 7 ≤ d.length ∧ d.getD 2 "" = "T" then do
    let _l1 ← l.set_speed (d.getD 4 "") (d.getD 6 "") (0, 0, 0)
    Except.error PyErr.typeError
  else Except.ok l

/-- GSV branch of Location.set (gps.py lines 203-205): when field 2 is set
and field 0 equals field 1, assign int(field 2) to the satellite count with
no check of the current value. -/
def Location.setGSV (l : Location) (d : List String) : Except PyErr Location :=
  if segSet d 2 = true ∧ d.getD 0 "" = d.getD 1 "" then do
    let n ← pyIntE (d.getD 2 "")
    Except.ok { l with satellites := n }
  else Except.ok l

/-- Dispatch of Location.set (gps.py lines 163-212): split on commas happens
in Location.set below; the message id selects a branch, and the MSS branch
and unknown ids leave the fields unchanged. -/
def dispatchSet (l : Location) (msgid : String) (d : List String) : Except PyErr Location :=
  if msgid = "$GPGGA" then l.setGGA d
  else if msgid = "$GPGLL" then l.setGLL d
  else if msgid = "$GPRMC" then l.setRMC d
  else if msgid = "$GPVTG" then l.setVTG d
  else if msgid = "$GPGSV" then l.setGSV d
  else Except.ok l

/-- Validity recomputation closing Location.set (gps.py lines 209-212). -/
def Location.set (l : Location) (msgid : String) (segment : String) : Except PyErr Location := do
  let l1 ← dispatchSet l msgid (pySplit segment ',')
  Except.ok { l1 with valid := l1.lat.isSome && l1.long.isSome }

/-- Accessor longitude() (gps.py lines 305-309): the source returns the value
of the LATITUDE field here; none models the False sentinel. -/
def Location.longitude (l : Location) : Option ℚ := l.lat.map Value.val

/-- Accessor latitude() (gps.py lines 311-315): the source returns the value
of the LONGITUDE field here; none models the False sentinel. -/
def Location.latitude (l : Location) : Option ℚ := l.long.map Value.val

/-- Accessor altitude() (gps.py lines 317-321). -/
def Location.altitude (l : Location) : Option ℚ := l.alt.map Value.val

/-- Accessor satellites() (gps.py lines 341-345): the count when it is
non-negative, otherwise the False sentinel, modelled as none. -/
def Location.satellitesVal (l : Location) : Option ℤ :=
  if 0 ≤ l.satellites then some l.satellites else none

/-- Outcome of Data.__update: no buffered lines, a dropped malformed buffer,
or a dispatch to Location.set (which may itself raise). -/
inductive UpdateResult where
  | nodata
  | malformed
  | dispatched (r : Except PyErr Location)

instance : DecidableEq (Except PyErr Location) := fun a b =>
  match a, b with
  | Except.ok x, Except.ok y =>
      if h : x = y then isTrue (by rw [h]) else isFalse (by simp [h])
  | Except.error e, Except.error f =>
      if h : e = f then isTrue (by rw [h]) else isFalse (by simp [h])
  | Except.ok _, Except.error _ => isFalse (by simp)
  | Except.error _, Except.ok _ => isFalse (by simp)

instance : DecidableEq UpdateResult := fun a b =>
  match a, b with
  | UpdateResult.nodata, UpdateResult.nodata => isTrue rfl
  | UpdateResult.malformed, UpdateResult.malformed => isTrue rfl
  | UpdateResult.dispatched x, UpdateResult.dispatched y =>
      if h : x = y then isTrue (by rw [h]) else isFalse (by simp [h])
  | UpdateResult.nodata, UpdateResult.malformed => isFalse (by simp)
  | UpdateResult.nodata, UpdateResult.dispatched _ => isFalse (by simp)
  | UpdateResult.malformed, UpdateResult.nodata => isFalse (by simp)
  | UpdateResult.malformed, UpdateResult.dispatched _ => isFalse (by simp)
  | UpdateResult.dispatched _, UpdateResult.nodata => isFalse (by simp)
  | UpdateResult.dispatched _, UpdateResult.malformed => isFalse (by simp)

/-- Hexadecimal digit character, lowercase. -/
def hexDigitCh (n : ℕ) : Char :=
  if n < 10 then Char.ofNat (48 + n) else Char.ofNat (87 + n)

/-- Escape of one byte inside the repr of a bytes object. -/
def pyReprChar (c : Char) : List Char :=
  if c = '\\' then ['\\', '\\']
  else if c = '\'' then ['\\', '\'']
  else if c = '\n' then ['\\', 'n']
  else if c = '\r' then ['\\', 'r']
  else if c = '\t' then ['\\', 't']
  else if 32 ≤ c.toNat ∧ c.toNat ≤ 126 then [c]
  else ['\\', 'x', hexDigitCh (c.toNat / 16 % 16), hexDigitCh (c.toNat % 16)]

/-- Model of the Python idiom ("%s" % (payload,))[2:-1] from gps.py line 414:
format the bytes object through its repr, then strip the two-character
prefix and the closing quote, leaving the escaped byte text.  The wrapper
always uses a single quote; NMEA payloads contain no quote characters, so
the CPython double-quote special case never fires on reachable inputs. -/
def pyReprStrip (s : String) : String :=
  (s.data.map pyReprChar).flatten.asString

/-- Data.__update on the joined buffer (gps.py lines 398-415): reject a
buffer whose last byte is neither LF nor CR, append an LF when the last byte
is not LF (on the MicroPython target of this source, bytes and str
concatenate), then dispatch Location.set on the first six bytes and the
escaped payload between byte 7 and the final two bytes. -/
def updateJoined (loc : Location) (data : String) : UpdateResult :=
  match data.data.getLast? with
  | none => UpdateResult.malformed
  | some c =>
      if c ≠ '\n' ∧ c ≠ '\r' then UpdateResult.malformed
      else
        let nd := if c ≠ '\n' then data ++ "\n" else data
        UpdateResult.dispatched
          (loc.set (strSlice nd 0 6) (pyReprStrip (strSlice nd 7 (nd.length - 2))))

/-- Data.__update (gps.py lines 398-415): an empty line list reports no
data, otherwise the lines are joined and processed by updateJoined. -/
def Data.update (loc : Location) (chunks : List String) : UpdateResult :=
  if chunks = [] then UpdateResult.nodata
  else updateJoined loc (String.join chunks)

/-- Inversion of an Except bind that returns ok. -/
theorem exBind_ok_iff {α β : Type} {x : Except PyErr α} {f : α → Except PyErr β} {b : β} :
    (x >>= f) = Except.ok b ↔ ∃ a, x = Except.ok a ∧ f a = Except.ok b := by
  cases x with
  | ok a => simp [Bind.bind, Except.bind]
  | error e => simp [Bind.bind, Except.bind]

/-- Totality of the time order: an earlier-or-equal time is exactly one that
is not strictly later. -/
theorem timeLt_eq_false_of_timeLe {a b : Time} (h : timeLe a b = true) :
    timeLt b a = false := by
  simp only [timeLe, timeLt, Bool.or_eq_true, decide_eq_true_eq] at h
  simp only [timeLt, decide_eq_false_iff_not]
  rcases h with h | h
  · rcases h with h1 | ⟨h1, h2 | ⟨h2, h3⟩⟩ <;>
      rintro (g1 | ⟨g1, g2 | ⟨g2, g3⟩⟩) <;> linarith
  · subst h
    rintro (g1 | ⟨g1, g2 | ⟨g2, g3⟩⟩) <;> linarith

/-- C7: for each mergeable field (latitude, longitude, speed, course, HDOP),
an incoming measurement whose time tuple is earlier than or equal to that of
the stored measurement under the lexicographic (hour, minute, second) order
never overwrites the stored value: the setter returns the location
unchanged, so a field is (re)assigned only when it is unset or the incoming
time is strictly greater. -/
theorem recency_merge (l : Location) (m : Value) (t : Time)
    (hle : timeLe t m.time = true) :
    (l.lat = some m → ∀ v d, l.set_lat v d t = Except.ok l)
    ∧ (l.long = some m → ∀ v d, l.set_long v d t = Except.ok l)
    ∧ (l.speed = some m → ∀ v u, l.set_speed v u t = Except.ok l)
    ∧ (l.course = some m → ∀ v, l.set_course v t = Except.ok l)
    ∧ (l.hdop = some m → ∀ v, l.set_hdop v t = Except.ok l) := by
  have hlt : timeLt m.time t = false := timeLt_eq_false_of_timeLe hle
  refine ⟨fun hf v d => ?_, fun hf v d => ?_, fun hf v u => ?_, fun hf v => ?_,
      fun hf v => ?_⟩ <;>
    simp [Location.set_lat, Location.set_long, Location.set_speed,
      Location.set_course, Location.set_hdop, hf, hlt]

/-- Concrete stored measurement for the recency-merge witness. -/
def c7val : Value := { val := mkRat 1 1, unit := "N", time := (1, 2, 3) }

/-- Concrete location holding c7val as its latitude. -/
def c7loc : Location := { Location.init with lat := some c7val }

/-- Witness for recency_merge at an equal-time incoming measurement. -/
theorem recency_merge_witness :
    timeLe (1, 2, 3) c7val.time = true ∧
      Location.set_lat c7loc "9912.0" "N" (1, 2, 3) = Except.ok c7loc :=
  ⟨by decide, (recency_merge c7loc c7val (1, 2, 3) (by decide)).1 (by decide) "9912.0" "N"⟩

/-- C8 counterexample: at HDOP value 0.99 the classifier returns the
abbreviated label of the source, not the full word stated in the claim. -/
theorem hdop_labels_counterexample :
    HDOP.classify (HDOP.make (mkRat 99 100) (0, 0, 0)) = "Ide." ∧
      ("Ide." : String) ≠ "Ideal" := by
  constructor
  · decide
  · decide

/-- C8 amended: the classifier maps the HDOP value by the claimed thresholds
with inclusive upper bounds, returning the abbreviated labels of the source:
below 1 gives Ide., 1 to 2 gives Exe., above 2 up to 5 gives Good, above 5
up to 10 gives Mod., above 10 up to 20 gives Fair, above 20 gives Poor. -/
theorem hdop_classification (v : Value) :
    (v.val < 1 → HDOP.classify v = "Ide.")
    ∧ (1 ≤ v.val → v.val ≤ 2 → HDOP.classify v = "Exe.")
    ∧ (2 < v.val → v.val ≤ 5 → HDOP.classify v = "Good")
    ∧ (5 < v.val → v.val ≤ 10 → HDOP.classify v = "Mod.")
    ∧ (10 < v.val → v.val ≤ 20 → HDOP.classify v = "Fair")
    ∧ (20 < v.val → HDOP.classify v = "Poor") := by
  unfold HDOP.classify
  refine ⟨fun h => ?_, fun h1 h2 => ?_, fun h1 h2 => ?_, fun h1 h2 => ?_,
      fun h1 h2 => ?_, fun h => ?_⟩ <;>
    split_ifs <;> first | rfl | linarith

/-- Witness for hdop_classification at the boundary value 2.01. -/
theorem hdop_classification_witness :
    (2 : ℚ) < mkRat 201 100 ∧ mkRat 201 100 ≤ 5 ∧
      HDOP.classify (HDOP.make (mkRat 201 100) (0, 0, 0)) = "Good" :=
  ⟨by decide, by decide,
    (hdop_classification (HDOP.make (mkRat 201 100) (0, 0, 0))).2.2.1 (by decide) (by decide)⟩

/-- C9: speed conversion multiplies by the factor 1.85200 from knots to km/h,
conversion to the unit already held returns the value unchanged, and the
round trip through the other unit returns the value within a tolerance of
one millionth (the rational model makes it exact). -/
theorem speed_conversion (s : Value) :
    (s.unit = "knot" ∨ s.unit = "N" →
        Speed.to_kmh s = { val := s.val * (1852 / 1000), unit := "kmh", time := s.time })
    ∧ (s.unit = "kmh" → Speed.to_kmh s = s)
    ∧ (s.unit = "knot" → Speed.to_knot s = s)
    ∧ (s.unit = "kmh" → |(Speed.to_kmh (Speed.to_knot s)).val - s.val| ≤ 1 / 1000000)
    ∧ (s.unit = "knot" → |(Speed.to_knot (Speed.to_kmh s)).val - s.val| ≤ 1 / 1000000) := by
  have hk : kmhPerKnot = (1852 : ℚ) / 1000 := by
    rw [kmhPerKnot, mkRat_div_cast]
    norm_num
  have hk0 : kmhPerKnot ≠ 0 := by
    rw [hk]
    norm_num
  refine ⟨fun h => ?_, fun h => ?_, fun h => ?_, fun h => ?_, fun h => ?_⟩
  · rw [Speed.to_kmh, if_pos h, ratMul_eq, hk]
  · rw [Speed.to_kmh, if_neg (by simp [h])]
  · rw [Speed.to_knot, if_neg (by simp [h])]
  · simp only [Speed.to_knot, Speed.to_kmh, h]
    norm_num
    rw [ratMul_eq, ratDiv_eq, div_mul_cancel₀ _ hk0]
    norm_num
  · simp only [Speed.to_kmh, Speed.to_knot, h]
    norm_num
    rw [ratDiv_eq, ratMul_eq, mul_div_cancel_right₀ _ hk0]
    norm_num

/-- Witness for speed_conversion at a concrete 10 km/h measurement. -/
theorem speed_conversion_witness :
    ({ val := mkRat 10 1, unit := "kmh", time := (0, 0, 0) } : Value).unit = "kmh" ∧
      Speed.to_kmh ({ val := mkRat 10 1, unit := "kmh", time := (0, 0, 0) } : Value) =
        ({ val := mkRat 10 1, unit := "kmh", time := (0, 0, 0) } : Value) :=
  ⟨rfl, (speed_conversion ({ val := mkRat 10 1, unit := "kmh", time := (0, 0, 0) } : Value)).2.1 rfl⟩

/-- C10: the Position constructor keeps the value exactly when the direction
tag is N or E and negates it for every other tag, including the empty string
and unrecognized tags. -/
theorem position_sign (v : ℚ) (u : String) (t : Time) (h : u ≠ "N" ∧ u ≠ "E") :
    (Position.make v u t).val = -v
    ∧ (Position.make v "N" t).val = v
    ∧ (Position.make v "E" t).val = v := by
  have hne : ¬(u = "N" ∨ u = "E") := by tauto
  refine ⟨?_, by simp [Position.make], by simp [Position.make]⟩
  simp [Position.make, hne, ratNeg_eq]

/-- Witness for position_sign at the empty direction tag. -/
theorem position_sign_witness :
    ((("" : String) ≠ "N" ∧ ("" : String) ≠ "E")) ∧
      (Position.make (mkRat 25 2) "" (0, 0, 0)).val = -(mkRat 25 2) :=
  ⟨⟨by decide, by decide⟩, (position_sign (mkRat 25 2) "" (0, 0, 0) ⟨by decide, by decide⟩).1⟩

/-- Framed GGA sentence of the end-to-end claim, terminator included. -/
def c1raw : String := "$GPGGA,123519,4807.038,N,01131.000,E,1,08,0.9,545.4,M,46.9,M,,*47\r\n"

/-- Location computed by the decode cycle on c1raw. -/
def c1loc : Location :=
  { valid := true,
    lat := some { val := mkRat 481173 10000, unit := "N", time := (12, 35, 19) },
    long := some { val := mkRat 691 60, unit := "E", time := (12, 35, 19) },
    alt := some { val := mkRat 5454 10, unit := "M", time := (12, 35, 19) },
    height := some { val := mkRat 469 10, unit := "46.9", time := (12, 35, 19) },
    speed := none, course := none, satellites := 8,
    hdop := some { val := mkRat 9 10, unit := "", time := (12, 35, 19) } }

/-- C1: decoding the framed GGA sentence succeeds and stores latitude
48.1173 and longitude 691/60 (about 11.5167) with satellites 8, altitude
545.4 and validity true, but the accessors return the opposite coordinate
fields: latitude() yields 691/60 and longitude() yields 48.1173, against
the claim that each accessor reports its own field. -/
theorem gga_end_to_end :
    Data.update Location.init [c1raw] = UpdateResult.dispatched (Except.ok c1loc)
    ∧ c1loc.lat = some { val := mkRat 481173 10000, unit := "N", time := (12, 35, 19) }
    ∧ c1loc.long = some { val := mkRat 691 60, unit := "E", time := (12, 35, 19) }
    ∧ c1loc.latitude = some (mkRat 691 60)
    ∧ c1loc.longitude = some (mkRat 481173 10000)
    ∧ mkRat 691 60 ≠ mkRat 481173 10000
    ∧ mkRat 691 60 < 12
    ∧ 48 < mkRat 481173 10000
    ∧ c1loc.satellitesVal = some 8
    ∧ c1loc.altitude = some (mkRat 5454 10)
    ∧ c1loc.valid = true := by
  decide

/-- Failing VTG payload: seven fields with field two equal to T. -/
def c2seg : String := "0,1,T,3,005.5,054.7,N"

/-- C2: a VTG sentence passing the guard raises TypeError, because gps.py
line 202 calls the two-parameter method __set_course with three arguments;
no course update ever happens on a VTG sentence.  The speed update of line
201, from field 4 with the unit in field 6 and the zero time tuple, does
execute before the raise, as the second conjunct shows on the same data. -/
theorem vtg_course_type_error :
    Location.set Location.init "$GPVTG" c2seg = Except.error PyErr.typeError
    ∧ Location.set_speed Location.init "005.5" "N" (0, 0, 0) =
        Except.ok { Location.init with
          speed := some { val := mkRat 55 10, unit := "N", time := (0, 0, 0) } } := by
  decide

/-- GGA payload with an empty time field, on which int raises. -/
def c3seg : String := ",4807.038,N,01131.000,E,1"

/-- C3: Location.set is not total: on a GGA sentence whose fix-quality guard
passes but whose time field is empty, int raises ValueError inside
__time_from_seg and the exception propagates out of set, aborting the whole
decode cycle, against the claim that set never raises. -/
theorem set_raises_value_error :
    Location.set Location.init "$GPGGA" c3seg = Except.error PyErr.valueError := by
  decide

/-- Reduction of updateJoined on a buffer ending in CR: the LF is appended
before dispatch. -/
theorem updateJoined_cr (loc : Location) (d : String)
    (h : d.data.getLast? = some '\r') :
    updateJoined loc d = UpdateResult.dispatched
      (loc.set (strSlice (d ++ "\n") 0 6)
        (pyReprStrip (strSlice (d ++ "\n") 7 ((d ++ "\n").length - 2)))) := by
  unfold updateJoined
  rw [h]
  rfl

/-- Reduction of updateJoined on a buffer ending in LF: dispatch without
modification. -/
theorem updateJoined_lf (loc : Location) (d : String)
    (h : d.data.getLast? = some '\n') :
    updateJoined loc d = UpdateResult.dispatched
      (loc.set (strSlice d 0 6) (pyReprStrip (strSlice d 7 (d.length - 2)))) := by
  unfold updateJoined
  rw [h]
  rfl

/-- C6: for every flushed buffer, a last byte that is neither CR nor LF
means the buffer is reported malformed and dropped with no dispatch, so the
decode cycle goes on with the next buffer; a last byte CR means an LF is
appended and the buffer is then parsed and dispatched exactly like the same
buffer with the LF already present. -/
theorem framer_termination (loc : Location) (s : String) (c : Char)
    (hlast : s.data.getLast? = some c) :
    (c ≠ '\n' ∧ c ≠ '\r' → updateJoined loc s = UpdateResult.malformed)
    ∧ (c = '\r' →
        updateJoined loc s = updateJoined loc (s ++ "\n")
        ∧ ∃ r, updateJoined loc s = UpdateResult.dispatched r) := by
  constructor
  · intro h
    unfold updateJoined
    rw [hlast]
    exact if_pos h
  · rintro rfl
    have hln : (s ++ "\n").data.getLast? = some '\n' := by
      show (s.data ++ "\n".data).getLast? = some '\n'
      exact List.getLast?_concat _
    rw [updateJoined_cr loc s hlast, updateJoined_lf loc (s ++ "\n") hln]
    exact ⟨rfl, _, rfl⟩

/-- Witness for framer_termination on a buffer with no terminator. -/
theorem framer_termination_witness :
    ("$GPGGA,x".data.getLast? = some 'x') ∧ (('x' : Char) ≠ '\n' ∧ ('x' : Char) ≠ '\r') ∧
      updateJoined Location.init "$GPGGA,x" = UpdateResult.malformed :=
  ⟨by decide, ⟨by decide, by decide⟩,
    (framer_termination Location.init "$GPGGA,x" 'x' (by decide)).1 ⟨by decide, by decide⟩⟩

/-- Outcome shapes of the latitude setter: unchanged, or the latitude field
replaced and nothing else. -/
theorem set_lat_shape {l : Location} {v d : String} {t : Time} {l2 : Location}
    (h : l.set_lat v d t = Except.ok l2) :
    l2 = l ∨ ∃ q, l2 = { l with lat := some (Position.make q d t) } := by
  unfold Location.set_lat at h
  split at h
  · exact Or.inl (Except.ok.inj h).symm
  · split at h
    · rw [exBind_ok_iff] at h
      obtain ⟨a, ha, h⟩ := h
      rw [exBind_ok_iff] at h
      obtain ⟨b, hb, h⟩ := h
      exact Or.inr ⟨ratAdd a (ratDiv b 60), (Except.ok.inj h).symm⟩
    · exact Or.inl (Except.ok.inj h).symm

/-- Outcome shapes of the longitude setter. -/
theorem set_long_shape {l : Location} {v d : String} {t : Time} {l2 : Location}
    (h : l.set_long v d t = Except.ok l2) :
    l2 = l ∨ ∃ q, l2 = { l with long := some (Position.make q d t) } := by
  unfold Location.set_long at h
  split at h
  · exact Or.inl (Except.ok.inj h).symm
  · split at h
    · rw [exBind_ok_iff] at h
      obtain ⟨a, ha, h⟩ := h
      rw [exBind_ok_iff] at h
      obtain ⟨b, hb, h⟩ := h
      exact Or.inr ⟨ratAdd a (ratDiv b 60), (Except.ok.inj h).symm⟩
    · exact Or.inl (Except.ok.inj h).symm

/-- Outcome shapes of the speed setter. -/
theorem set_speed_shape {l : Location} {v u : String} {t : Time} {l2 : Location}
    (h : l.set_speed v u t = Except.ok l2) :
    l2 = l ∨ ∃ q, l2 = { l with speed := some { val := q, unit := u, time := t } } := by
  unfold Location.set_speed at h
  split at h
  · exact Or.inl (Except.ok.inj h).symm
  · split at h
    · rw [exBind_ok_iff] at h
      obtain ⟨q, hq, h⟩ := h
      exact Or.inr ⟨q, (Except.ok.inj h).symm⟩
    · exact Or.inl (Except.ok.inj h).symm

/-- Outcome shapes of the course setter. -/
theorem set_course_shape {l : Location} {v : String} {t : Time} {l2 : Location}
    (h : l.set_course v t = Except.ok l2) :
    l2 = l ∨ ∃ q, l2 = { l with course := some (Course.make q t) } := by
  unfold Location.set_course at h
  split at h
  · exact Or.inl (Except.ok.inj h).symm
  · split at h
    · rw [exBind_ok_iff] at h
      obtain ⟨q, hq, h⟩ := h
      exact Or.inr ⟨q, (Except.ok.inj h).symm⟩
    · exact Or.inl (Except.ok.inj h).symm

/-- Outcome shapes of the HDOP setter. -/
theorem set_hdop_shape {l : Location} {v : String} {t : Time} {l2 : Location}
    (h : l.set_hdop v t = Except.ok l2) :
    l2 = l ∨ ∃ q, l2 = { l with hdop := some (HDOP.make q t) } := by
  unfold Location.set_hdop at h
  split at h
  · exact Or.inl (Except.ok.inj h).symm
  · split at h
    · rw [exBind_ok_iff] at h
      obtain ⟨q, hq, h⟩ := h
      exact Or.inr ⟨q, (Except.ok.inj h).symm⟩
    · exact Or.inl (Except.ok.inj h).symm

/-- The satellite step leaves a non-negative count unchanged. -/
theorem ggaSatStep_frozen {l : Location} {d : List String} {l2 : Location}
    (hsat : 0 ≤ l.satellites) (h : ggaSatStep l d = Except.ok l2) : l2 = l := by
  unfold ggaSatStep at h
  rw [if_neg (by rintro ⟨hc, _⟩; omega)] at h
  exact (Except.ok.inj h).symm

/-- The HDOP step only ever touches the hdop field. -/
theorem ggaHdopStep_shape {l : Location} {d : List String} {t : Time} {l2 : Location}
    (h : ggaHdopStep l d t = Except.ok l2) :
    l2 = l ∨ ∃ q, l2 = { l with hdop := some (HDOP.make q t) } := by
  unfold ggaHdopStep at h
  split at h
  · exact set_hdop_shape h
  · exact Or.inl (Except.ok.inj h).symm

/-- The altitude step only ever touches the altitude field, and stores unit
field 9 when that is set and M otherwise. -/
theorem ggaAltStep_shape {l : Location} {d : List String} {t : Time} {l2 : Location}
    (h : ggaAltStep l d t = Except.ok l2) :
    l2 = l ∨ ∃ q, l2 = { l with
      alt := some (Distance.make q (if segSet d 9 = false then "M" else d.getD 9 "") t) } := by
  unfold ggaAltStep at h
  split at h
  · rw [exBind_ok_iff] at h
    obtain ⟨q, hq, h⟩ := h
    exact Or.inr ⟨q, (Except.ok.inj h).symm⟩
  · exact Or.inl (Except.ok.inj h).symm

/-- The height step only ever touches the height field, and stores unit
field 10 itself when field 11 is set and M otherwise. -/
theorem ggaHeightStep_shape {l : Location} {d : List String} {t : Time} {l2 : Location}
    (h : ggaHeightStep l d t = Except.ok l2) :
    l2 = l ∨ ∃ q, l2 = { l with
      height := some (Distance.make q (if segSet d 11 = false then "M" else d.getD 10 "") t) } := by
  unfold ggaHeightStep at h
  split at h
  · rw [exBind_ok_iff] at h
    obtain ⟨q, hq, h⟩ := h
    exact Or.inr ⟨q, (Except.ok.inj h).symm⟩
  · exact Or.inl (Except.ok.inj h).symm

/-- The GGA branch never changes a non-negative satellite count. -/
theorem setGGA_sat {l : Location} {d : List String} {l2 : Location}
    (hsat : 0 ≤ l.satellites) (h : l.setGGA d = Except.ok l2) :
    l2.satellites = l.satellites := by
  unfold Location.setGGA at h
  split at h
  · rw [exBind_ok_iff] at h
    obtain ⟨t, ht, h⟩ := h
    rw [exBind_ok_iff] at h
    obtain ⟨x1, hx1, h⟩ := h
    rw [exBind_ok_iff] at h
    obtain ⟨x2, hx2, h⟩ := h
    rw [exBind_ok_iff] at h
    obtain ⟨x3, hx3, h⟩ := h
    rw [exBind_ok_iff] at h
    obtain ⟨x4, hx4, h⟩ := h
    rw [exBind_ok_iff] at h
    obtain ⟨x5, hx5, h⟩ := h
    rw [exBind_ok_iff] at h
    obtain ⟨x6, hx6, h⟩ := h
    have s1 : x1.satellites = l.satellites := by
      rcases set_lat_shape hx1 with rfl | ⟨q, rfl⟩ <;> simp
    have s2 : x2.satellites = l.satellites := by
      rcases set_long_shape hx2 with rfl | ⟨q, rfl⟩ <;> simp [s1]
    have s3 : x3.satellites = l.satellites := by
      rw [ggaSatStep_frozen (by omega) hx3, s2]
    have s4 : x4.satellites = l.satellites := by
      rcases ggaHdopStep_shape hx4 with rfl | ⟨q, rfl⟩ <;> simp [s3]
    have s5 : x5.satellites = l.satellites := by
      rcases ggaAltStep_shape hx5 with rfl | ⟨q, rfl⟩ <;> simp [s4]
    have s6 : x6.satellites = l.satellites := by
      rcases ggaHeightStep_shape hx6 with rfl | ⟨q, rfl⟩ <;> simp [s5]
    rw [← Except.ok.inj h, s6]
  · rw [← Except.ok.inj h]

/-- The GLL branch never changes the satellite count. -/
theorem setGLL_sat {l : Location} {d : List String} {l2 : Location}
    (h : l.setGLL d = Except.ok l2) : l2.satellites = l.satellites := by
  unfold Location.setGLL at h
  split at h
  · rw [exBind_ok_iff] at h
    obtain ⟨t, ht, h⟩ := h
    rw [exBind_ok_iff] at h
    obtain ⟨x1, hx1, h⟩ := h
    have s1 : x1.satellites = l.satellites := by
      rcases set_lat_shape hx1 with rfl | ⟨q, rfl⟩ <;> simp
    rcases set_long_shape h with rfl | ⟨q, rfl⟩ <;> simp [s1]
  · rw [← Except.ok.inj h]

/-- The RMC branch never changes the satellite count. -/
theorem setRMC_sat {l : Location} {d : List String} {l2 : Location}
    (h : l.setRMC d = Except.ok l2) : l2.satellites = l.satellites := by
  unfold Location.setRMC at h
  split at h
  · rw [exBind_ok_iff] at h
    obtain ⟨t, ht, h⟩ := h
    rw [exBind_ok_iff] at h
    obtain ⟨x1, hx1, h⟩ := h
    rw [exBind_ok_iff] at h
    obtain ⟨x2, hx2, h⟩ := h
    rw [exBind_ok_iff] at h
    obtain ⟨s6, hs6, h⟩ := h
    rw [exBind_ok_iff] at h
    obtain ⟨x3, hx3, h⟩ := h
    rw [exBind_ok_iff] at h
    obtain ⟨s7, hs7, h⟩ := h
    have p1 : x1.satellites = l.satellites := by
      rcases set_lat_shape hx1 with rfl | ⟨q, rfl⟩ <;> simp
    have p2 : x2.satellites = l.satellites := by
      rcases set_long_shape hx2 with rfl | ⟨q, rfl⟩ <;> simp [p1]
    have p3 : x3.satellites = l.satellites := by
      rcases set_speed_shape hx3 with rfl | ⟨q, rfl⟩ <;> simp [p2]
    rcases set_course_shape h with rfl | ⟨q, rfl⟩ <;> simp [p3]
  · rw [← Except.ok.inj h]

/-- The VTG branch never changes the satellite count (it raises before any
course update whenever its guard holds). -/
theorem setVTG_sat {l : Location} {d : List String} {l2 : Location}
    (h : l.setVTG d = Except.ok l2) : l2.satellites = l.satellites := by
  unfold Location.setVTG at h
  split at h
  · rw [exBind_ok_iff] at h
    obtain ⟨x, hx, h⟩ := h
    simp at h
  · rw [← Except.ok.inj h]

/-- The GSV branch assigns the parsed count whenever its guard holds,
regardless of the current value. -/
theorem setGSV_assigns {l : Location} {d : List String} {n : ℤ}
    (hg : segSet d 2 = true ∧ d.getD 0 "" = d.getD 1 "")
    (hn : pyIntE (d.getD 2 "") = Except.ok n) :
    l.setGSV d = Except.ok { l with satellites := n } := by
  unfold Location.setGSV
  rw [if_pos hg, hn]
  rfl

/-- GGA payload that sets the satellite count to 8. -/
def c4seg : String := "123519,4807.038,N,01131.000,E,1,08"

/-- Location after decoding c4seg from a fresh state. -/
def c4loc1 : Location :=
  { valid := true,
    lat := some { val := mkRat 481173 10000, unit := "N", time := (12, 35, 19) },
    long := some { val := mkRat 691 60, unit := "E", time := (12, 35, 19) },
    alt := none, height := none, speed := none, course := none,
    satellites := 8, hdop := none }

/-- Location after a subsequent single-message GSV reporting 4 satellites. -/
def c4loc2 : Location := { c4loc1 with satellites := 4 }

/-- C4 counterexample: a GGA sentence sets the count to 8, and a later GSV
sentence of the same cycle overwrites it with 4, so a later processed
sentence does overwrite a non-negative count. -/
theorem satellites_counterexample :
    Location.set Location.init "$GPGGA" c4seg = Except.ok c4loc1
    ∧ c4loc1.satellites = 8
    ∧ Location.set c4loc1 "$GPGSV" "1,1,04" = Except.ok c4loc2
    ∧ c4loc2.satellites = 4 := by
  decide

/-- C4 amended: once the satellite count is non-negative, no later sentence
of any type other than GSV changes it, and the GGA branch assigns the count
only when it is the -1 sentinel; the GSV branch however assigns int(field 2)
whenever field 2 is set and field 0 equals field 1, regardless of the
current value. -/
theorem satellites_policy (l : Location) (hsat : 0 ≤ l.satellites) :
    (∀ msgid seg l2, msgid ≠ "$GPGSV" → l.set msgid seg = Except.ok l2 →
        l2.satellites = l.satellites)
    ∧ (∀ d n, segSet d 2 = true → d.getD 0 "" = d.getD 1 "" →
        pyIntE (d.getD 2 "") = Except.ok n →
        l.setGSV d = Except.ok { l with satellites := n }) := by
  constructor
  · intro msgid seg l2 hne h
    unfold Location.set at h
    rw [exBind_ok_iff] at h
    obtain ⟨x1, h1, h⟩ := h
    have hfin : l2.satellites = x1.satellites := by
      rw [← Except.ok.inj h]
    unfold dispatchSet at h1
    by_cases hgga : msgid = "$GPGGA"
    · rw [if_pos hgga] at h1
      exact hfin.trans (setGGA_sat hsat h1)
    · rw [if_neg hgga] at h1
      by_cases hgll : msgid = "$GPGLL"
      · rw [if_pos hgll] at h1
        exact hfin.trans (setGLL_sat h1)
      · rw [if_neg hgll] at h1
        by_cases hrmc : msgid = "$GPRMC"
        · rw [if_pos hrmc] at h1
          exact hfin.trans (setRMC_sat h1)
        · rw [if_neg hrmc] at h1
          by_cases hvtg : msgid = "$GPVTG"
          · rw [if_pos hvtg] at h1
            exact hfin.trans (setVTG_sat h1)
          · rw [if_neg hvtg] at h1
            by_cases hgsv : msgid = "$GPGSV"
            · exact absurd hgsv hne
            · rw [if_neg hgsv] at h1
              exact hfin.trans (by rw [← Except.ok.inj h1])
  · intro d n h2 h01 hn
    exact setGSV_assigns ⟨h2, h01⟩ hn

/-- Witness for satellites_policy on a non-negative count and a non-GSV
sentence. -/
theorem satellites_policy_witness :
    0 ≤ c4loc1.satellites ∧ ("$GPGGA" : String) ≠ "$GPGSV" ∧
      Location.set c4loc1 "$GPGGA" "" = Except.ok c4loc1 ∧
      c4loc1.satellites = c4loc1.satellites :=
  ⟨by decide, by decide, by decide,
    (satellites_policy c4loc1 (by decide)).1 "$GPGGA" "" c4loc1 (by decide) (by decide)⟩

/-- GGA payload with field 10 present and field 11 absent. -/
def c5seg : String := "123519,4807.038,N,01131.000,E,1,08,0.9,545.4,M,46.9"

/-- Location after decoding c5seg from a fresh state: the height is stored
with unit M, not with unit field 10. -/
def c5loc : Location :=
  { valid := true,
    lat := some { val := mkRat 481173 10000, unit := "N", time := (12, 35, 19) },
    long := some { val := mkRat 691 60, unit := "E", time := (12, 35, 19) },
    alt := some { val := mkRat 5454 10, unit := "M", time := (12, 35, 19) },
    height := some { val := mkRat 469 10, unit := "M", time := (12, 35, 19) },
    speed := none, course := none, satellites := 8,
    hdop := some { val := mkRat 9 10, unit := "", time := (12, 35, 19) } }

/-- C5 counterexample: on a GGA sentence where field 10 is present and field
11 is absent, the height is stored with unit M, not with unit field 10 as
the claim states; the source uses field 10 as the unit only when field 11 is
present. -/
theorem gga_height_unit_counterexample :
    Location.set Location.init "$GPGGA" c5seg = Except.ok c5loc
    ∧ segSet (pySplit c5seg ',') 10 = true
    ∧ segSet (pySplit c5seg ',') 11 = false
    ∧ (pySplit c5seg ',').getD 10 "" = "46.9"
    ∧ c5loc.height = some { val := mkRat 469 10, unit := "M", time := (12, 35, 19) }
    ∧ ("M" : String) ≠ "46.9" := by
  decide

/-- C5 amended: in GGA handling, when field 8 is present the altitude is
stored with unit field 9 if field 9 is present and M otherwise; when field
10 is present the height is stored with unit field 10 itself when field 11
is PRESENT, and with unit M when field 11 is absent. -/
theorem gga_unit_fallbacks (l : Location) (d : List String) (l2 : Location)
    (hg : 6 ≤ d.length ∧ (d.getD 5 "" = "1" ∨ d.getD 5 "" = "2" ∨ d.getD 5 "" = "6"))
    (h8 : segSet d 8 = true) (h10 : segSet d 10 = true)
    (h : l.setGGA d = Except.ok l2) :
    (∃ v, l2.alt = some v ∧ v.unit = (if segSet d 9 = false then "M" else d.getD 9 ""))
    ∧ (∃ v, l2.height = some v ∧ v.unit = (if segSet d 11 = false then "M" else d.getD 10 "")) := by
  unfold Location.setGGA at h
  rw [if_pos hg] at h
  rw [exBind_ok_iff] at h
  obtain ⟨t, ht, h⟩ := h
  rw [exBind_ok_iff] at h
  obtain ⟨x1, hx1, h⟩ := h
  rw [exBind_ok_iff] at h
  obtain ⟨x2, hx2, h⟩ := h
  rw [exBind_ok_iff] at h
  obtain ⟨x3, hx3, h⟩ := h
  rw [exBind_ok_iff] at h
  obtain ⟨x4, hx4, h⟩ := h
  rw [exBind_ok_iff] at h
  obtain ⟨x5, hx5, h⟩ := h
  rw [exBind_ok_iff] at h
  obtain ⟨x6, hx6, h⟩ := h
  unfold ggaAltStep at hx5
  rw [if_pos h8] at hx5
  rw [exBind_ok_iff] at hx5
  obtain ⟨q8, hq8, hx5⟩ := hx5
  unfold ggaHeightStep at hx6
  rw [if_pos h10] at hx6
  rw [exBind_ok_iff] at hx6
  obtain ⟨q10, hq10, hx6⟩ := hx6
  have e5 : x5 = { x4 with
      alt := some (Distance.make q8 (if segSet d 9 = false then "M" else d.getD 9 "") t) } :=
    (Except.ok.inj hx5).symm
  have e6 : x6 = { x5 with
      height := some (Distance.make q10 (if segSet d 11 = false then "M" else d.getD 10 "") t) } :=
    (Except.ok.inj hx6).symm
  have e7 : l2 = x6 := (Except.ok.inj h).symm
  subst e7
  subst e6
  subst e5
  exact ⟨⟨_, rfl, rfl⟩, ⟨_, rfl, rfl⟩⟩

/-- GGA payload with twelve fields, field 11 present, for the witness. -/
def c5wseg : String := "123519,4807.038,N,01131.000,E,1,08,0.9,545.4,M,46.9,M"

/-- Location produced by the GGA branch alone on c5wseg from a fresh state
(the branch itself does not recompute validity). -/
def c5wloc : Location :=
  { valid := false,
    lat := some { val := mkRat 481173 10000, unit := "N", time := (12, 35, 19) },
    long := some { val := mkRat 691 60, unit := "E", time := (12, 35, 19) },
    alt := some { val := mkRat 5454 10, unit := "M", time := (12, 35, 19) },
    height := some { val := mkRat 469 10, unit := "46.9", time := (12, 35, 19) },
    speed := none, course := none, satellites := 8,
    hdop := some { val := mkRat 9 10, unit := "", time := (12, 35, 19) } }

/-- Witness for gga_unit_fallbacks on c5wseg. -/
theorem gga_unit_fallbacks_witness :
    Location.setGGA Location.init (pySplit c5wseg ',') = Except.ok c5wloc
    ∧ ((∃ v, c5wloc.alt = some v ∧
          v.unit = (if segSet (pySplit c5wseg ',') 9 = false then "M"
            else (pySplit c5wseg ',').getD 9 ""))
       ∧ (∃ v, c5wloc.height = some v ∧
          v.unit = (if segSet (pySplit c5wseg ',') 11 = false then "M"
            else (pySplit c5wseg ',').getD 10 ""))) :=
  ⟨by decide,
    gga_unit_fallbacks Location.init (pySplit c5wseg ',') c5wloc
      ⟨by decide, by decide⟩ (by decide) (by decide) (by decide)⟩
